import Mathlib

/-!
Verification development for the SIH2025 geological-site monitoring
dashboard.  The definitions below are shallow embeddings of the
TypeScript source: the threshold classifier `getRiskLevel`
(src/unnamed/part_010), the `WebSocketService` reconnect / subscribe
logic (src/src/src/pages/Settings.tsx), the bounded alert buffer of the
`Header` component (src/frontend/src/components/Header.tsx), and the
`alerts` table of src/database/schema.sql.  Where the repository ships
no implementation (the pub/sub broker's session handling and the alert
acknowledge/resolve backend), the missing part is modelled from the
spec, with a doc comment saying so.
-/

/- ## Threshold evaluator (src/unnamed/part_010, getRiskLevel) -/

/-- The `thresholds` argument of `getRiskLevel`: the source object
`{ warning: number; critical: number }`.  JS numbers are modelled as
rationals. -/
structure RawThresholds where
  warning : ℚ
  critical : ℚ
deriving DecidableEq

/-- The classification levels produced by `getRiskLevel`. -/
inductive RiskStatus where
  | normal
  | warning
  | critical
deriving DecidableEq

/-- The return object of `getRiskLevel`: `{ level, color }`. -/
structure RiskLevel where
  level : RiskStatus
  color : String
deriving DecidableEq

/-- Embedding of `getRiskLevel` from src/unnamed/part_010, lines
188-192: critical comparison first, then warning, else normal; the
source performs no validation of the threshold configuration. -/
def getRiskLevel (value : ℚ) (thresholds : RawThresholds) : RiskLevel :=
  if value ≥ thresholds.critical then ⟨RiskStatus.critical, "#f44336"⟩
  else if value ≥ thresholds.warning then ⟨RiskStatus.warning, "#ff9800"⟩
  else ⟨RiskStatus.normal, "#4caf50"⟩

/-- Error taxonomy of the spec for threshold configuration. -/
inductive ThresholdError where
  | invalidThreshold
deriving DecidableEq

/-- The classifier as the spec's words describe it (section 4.1): it
rejects a configuration where `critical < max` (the `max`/warning
threshold) with `InvalidThresholdError`, otherwise classifies with the
critical comparison first.  Stated only to be compared with the
source's `getRiskLevel`. -/
def classifySpec (value : ℚ) (thresholds : RawThresholds) :
    Except ThresholdError RiskStatus :=
  if thresholds.critical < thresholds.warning then
    Except.error ThresholdError.invalidThreshold
  else if value ≥ thresholds.critical then Except.ok RiskStatus.critical
  else if value ≥ thresholds.warning then Except.ok RiskStatus.warning
  else Except.ok RiskStatus.normal

/-- C1: the threshold classification is critical iff the value reaches
the critical threshold; otherwise warning iff it reaches the warning
threshold (the spec's `t.max`); otherwise normal — a value equal to a
boundary lands in the stricter bucket because the critical comparison
is performed first. -/
theorem getRiskLevel_classification (v : ℚ) (t : RawThresholds) :
    ((getRiskLevel v t).level = RiskStatus.critical ↔ v ≥ t.critical)
    ∧ ((getRiskLevel v t).level = RiskStatus.warning ↔
        (¬ v ≥ t.critical ∧ v ≥ t.warning))
    ∧ ((getRiskLevel v t).level = RiskStatus.normal ↔
        (¬ v ≥ t.critical ∧ ¬ v ≥ t.warning)) := by
  unfold getRiskLevel
  split_ifs with h1 h2 <;> simp_all

/-- C5 counterexample: with the inverted configuration
`{warning := 20, critical := 10}` (so `critical < max`) and value 15,
the source's classifier does not fail: it returns the `critical` level,
while the spec's classifier rejects the configuration with
`InvalidThresholdError`. -/
theorem getRiskLevel_no_threshold_validation :
    getRiskLevel 15 ⟨20, 10⟩ = ⟨RiskStatus.critical, "#f44336"⟩
    ∧ classifySpec 15 ⟨20, 10⟩ =
        Except.error ThresholdError.invalidThreshold
    ∧ (10 : ℚ) < 20 := by
  refine ⟨?_, ?_, by norm_num⟩ <;> rfl

/-- C5 amended: the source performs no threshold validation at all —
classification is a total pure function for every configuration,
including an inverted one where `critical < warning`; there any value
at or above `critical` is classified critical even below the warning
threshold, so no error is ever produced. -/
theorem getRiskLevel_total_on_inverted_thresholds (v : ℚ)
    (t : RawThresholds) (hlo : t.critical ≤ v) (hhi : v < t.warning) :
    (getRiskLevel v t).level = RiskStatus.critical := by
  unfold getRiskLevel
  split_ifs with h1 h2 <;> simp_all

/-- Witness for the amended C5 theorem at value 15 and the inverted
configuration with warning 20 and critical 10. -/
theorem getRiskLevel_total_on_inverted_thresholds_witness :
    (getRiskLevel 15 ⟨20, 10⟩).level = RiskStatus.critical :=
  getRiskLevel_total_on_inverted_thresholds 15 ⟨20, 10⟩
    (by norm_num) (by norm_num)

/- ## WebSocketService (src/src/src/pages/Settings.tsx, lines 1888-2060) -/

/-- The mutable fields of `WebSocketService` together with the two
relevant properties of its `socket` object: `socketExists` models
`socket !== null`, `connected` models `socket.connected`, and
`socketDisconnected` models `socket.disconnected`. -/
structure WSState where
  socketExists : Bool
  connected : Bool
  socketDisconnected : Bool
  reconnectAttempts : Nat
deriving DecidableEq

/-- The constant `maxReconnectAttempts = 5` of the source. -/
def maxReconnectAttempts : Nat := 5

/-- The constant `reconnectDelay = 1000` (milliseconds) of the source. -/
def reconnectDelay : Nat := 1000

/-- The subscribe / request messages the service can emit on the
socket (each is sent as a JSON string in the source). -/
inductive Msg where
  | subscribeAlerts
  | subscribeLiveData (siteId : Option Nat)
  | subscribePredictions (siteId : Option Nat)
  | getLiveData (siteId : Option Nat)
deriving DecidableEq

/-- The observable side effects of the service: scheduling a delayed
reconnect (`setTimeout(... connect ...)`), sending a message on the
socket, or logging that the maximum number of attempts was reached. -/
inductive WSAction where
  | scheduleReconnect (delayMs : Nat)
  | sendMsg (m : Msg)
  | logMaxAttemptsReached
deriving DecidableEq

/-- Embedding of `handleReconnect` (Settings.tsx lines 1958-1969): if
`reconnectAttempts < maxReconnectAttempts`, increment the counter and
schedule a reconnect after `reconnectDelay * reconnectAttempts`
milliseconds (the post-increment value); otherwise only log that the
maximum was reached. -/
def handleReconnect (s : WSState) : WSState × List WSAction :=
  if s.reconnectAttempts < maxReconnectAttempts then
    let a := s.reconnectAttempts + 1
    ({ s with reconnectAttempts := a },
     [WSAction.scheduleReconnect (reconnectDelay * a)])
  else (s, [WSAction.logMaxAttemptsReached])

/-- Embedding of the `connect` handler registered in `connect()`
(lines 1923-1927): on a successful connection the socket is connected
and `reconnectAttempts` is reset to 0. -/
def onConnect (s : WSState) : WSState :=
  { s with connected := true, socketDisconnected := false,
           reconnectAttempts := 0 }

/-- Embedding of the `disconnect` handler registered in `connect()`
(lines 1929-1935): the socket is now disconnected, and
`handleReconnect` runs only when the reason is not
`io client disconnect` (a manual disconnect). -/
def onDisconnect (s : WSState) (reason : String) : WSState × List WSAction :=
  let s2 := { s with connected := false, socketDisconnected := true }
  if reason ≠ "io client disconnect" then handleReconnect s2
  else (s2, [])

/-- Embedding of the `connect()` method's synchronous effect (lines
1903-1921): a fresh socket object is created (`forceNew: true`) and
handlers are registered; no subscribe message is sent. -/
def connectCall (s : WSState) : WSState × List WSAction :=
  ({ s with socketExists := true, connected := false,
            socketDisconnected := false }, [])

/-- Embedding of `disconnect()` (lines 2051-2056): if a socket exists
it is disconnected manually — socket.io delivers the `disconnect` event
with reason `io client disconnect` for a client-initiated disconnect —
and the socket reference is cleared. -/
def disconnectCall (s : WSState) : WSState × List WSAction :=
  if s.socketExists then
    let r := onDisconnect s "io client disconnect"
    ({ r.1 with socketExists := false }, r.2)
  else (s, [])

/-- Embedding of `subscribeToAlerts()` (lines 1994-2000): the message
is sent only when `socket?.connected` holds; otherwise nothing at all
happens. -/
def subscribeToAlerts (s : WSState) : WSState × List WSAction :=
  if s.socketExists && s.connected then
    (s, [WSAction.sendMsg Msg.subscribeAlerts])
  else (s, [])

/-- Embedding of `subscribeToLiveData(siteId?)` (Settings.tsx): guarded
by `socket?.connected` exactly like `subscribeToAlerts`. -/
def subscribeToLiveData (s : WSState) (siteId : Option Nat) :
    WSState × List WSAction :=
  if s.socketExists && s.connected then
    (s, [WSAction.sendMsg (Msg.subscribeLiveData siteId)])
  else (s, [])

/-- Embedding of `subscribeToPredictions(siteId?)` (Settings.tsx):
guarded by `socket?.connected` exactly like `subscribeToAlerts`. -/
def subscribeToPredictions (s : WSState) (siteId : Option Nat) :
    WSState × List WSAction :=
  if s.socketExists && s.connected then
    (s, [WSAction.sendMsg (Msg.subscribePredictions siteId)])
  else (s, [])

/-- Embedding of `getConnectionStatus()` (lines 2062-2068). -/
def getConnectionStatus (s : WSState) : String :=
  if !s.socketExists then "disconnected"
  else if s.connected then "connected"
  else if s.socketDisconnected = false && !s.connected then "connecting"
  else "disconnected"

/-- The events the service reacts to: socket events (delivered only
while a socket object exists) and the public method calls. -/
inductive WSEvent where
  | evConnect
  | evDisconnect (reason : String)
  | callConnect
  | callDisconnect
  | callSubscribeAlerts
  | callSubscribeLiveData (siteId : Option Nat)
  | callSubscribePredictions (siteId : Option Nat)
deriving DecidableEq

/-- One step of the service: dispatches an event to the corresponding
embedded handler.  Socket events are delivered only while the socket
object exists (its handlers die with it). -/
def wsStep (s : WSState) (e : WSEvent) : WSState × List WSAction :=
  match e with
  | WSEvent.evConnect => if s.socketExists then (onConnect s, []) else (s, [])
  | WSEvent.evDisconnect r =>
      if s.socketExists then onDisconnect s r else (s, [])
  | WSEvent.callConnect => connectCall s
  | WSEvent.callDisconnect => disconnectCall s
  | WSEvent.callSubscribeAlerts => subscribeToAlerts s
  | WSEvent.callSubscribeLiveData i => subscribeToLiveData s i
  | WSEvent.callSubscribePredictions i => subscribeToPredictions s i

/-- Running the service over a list of events, collecting all emitted
actions in order. -/
def wsRun (s : WSState) (evs : List WSEvent) : WSState × List WSAction :=
  match evs with
  | [] => (s, [])
  | e :: rest =>
      let r := wsStep s e
      let r2 := wsRun r.1 rest
      (r2.1, r.2 ++ r2.2)

/-- An event is an unexpected disconnect when it is a socket
`disconnect` event whose reason is not `io client disconnect`. -/
def isUnexpectedDisconnect : WSEvent → Bool
  | WSEvent.evDisconnect r => r ≠ "io client disconnect"
  | _ => false

/-- A fresh service state right after a socket was created: the socket
exists, is not yet connected, and no reconnect attempt has been made. -/
def freshWS : WSState :=
  { socketExists := true, connected := false, socketDisconnected := true,
    reconnectAttempts := 0 }

/-- The actions emitted by `n` consecutive invocations of
`handleReconnect` starting from state `s` (the scenario of repeated
failed reconnects). -/
def reconnectSchedule (s : WSState) : Nat → List WSAction
  | 0 => []
  | n + 1 =>
      (handleReconnect s).2 ++ reconnectSchedule (handleReconnect s).1 n

/-- C2 counterexample: starting from a fresh state, the delays of the
first three consecutive reconnect attempts are 1000 ms, 2000 ms and
3000 ms — the third differs from the 4000 ms that an exponential
schedule with base 1000 ms and multiplier 2 prescribes. -/
theorem reconnect_delay_not_exponential :
    (handleReconnect freshWS).2 = [WSAction.scheduleReconnect 1000]
    ∧ (handleReconnect (handleReconnect freshWS).1).2 =
        [WSAction.scheduleReconnect 2000]
    ∧ (handleReconnect (handleReconnect (handleReconnect freshWS).1).1).2 =
        [WSAction.scheduleReconnect 3000]
    ∧ (3000 : Nat) ≠ 1000 * 2 ^ 2 := by
  decide

/-- C2 amended: the backoff is linear, not exponential — the delay
before attempt `n + 1` is `reconnectDelay * (n + 1)` milliseconds, so
the successive delays are 1 s, 2 s, 3 s, 4 s, 5 s; once the five
attempts are exhausted `handleReconnect` changes nothing and schedules
no further attempt (it only logs), and the connection status reported
for the dead socket is `disconnected`. -/
theorem reconnect_backoff_linear (s : WSState) :
    (s.reconnectAttempts < maxReconnectAttempts →
      handleReconnect s =
        ({ s with reconnectAttempts := s.reconnectAttempts + 1 },
         [WSAction.scheduleReconnect
            (reconnectDelay * (s.reconnectAttempts + 1))]))
    ∧ (maxReconnectAttempts ≤ s.reconnectAttempts →
        handleReconnect s = (s, [WSAction.logMaxAttemptsReached]))
    ∧ reconnectSchedule freshWS 6 =
        [WSAction.scheduleReconnect 1000, WSAction.scheduleReconnect 2000,
         WSAction.scheduleReconnect 3000, WSAction.scheduleReconnect 4000,
         WSAction.scheduleReconnect 5000, WSAction.logMaxAttemptsReached]
    ∧ (s.connected = false → s.socketDisconnected = true →
        getConnectionStatus s = "disconnected") := by
  refine ⟨?_, ?_, by decide, ?_⟩
  · intro h
    simp [handleReconnect, h]
  · intro h
    simp [handleReconnect, Nat.not_lt.mpr h]
  · intro h1 h2
    by_cases hs : s.socketExists <;>
      simp [getConnectionStatus, h1, h2, hs]

/-- Witness for the amended C2 theorem: from the fresh state the first
reconnect attempt is scheduled after 1000 ms, and the dead fresh state
reports status `disconnected`. -/
theorem reconnect_backoff_linear_witness :
    handleReconnect freshWS =
      ({ freshWS with reconnectAttempts := 1 },
       [WSAction.scheduleReconnect 1000])
    ∧ getConnectionStatus freshWS = "disconnected" :=
  ⟨(reconnect_backoff_linear freshWS).1 (by decide),
   (reconnect_backoff_linear freshWS).2.2.2 rfl rfl⟩

/-- C6: a successful reconnect (the socket `connect` event) resets the
attempt counter to zero, so the next unexpected disconnect schedules
the first-attempt delay of 1000 ms again. -/
theorem connect_resets_reconnectAttempts (s : WSState) :
    (onConnect s).reconnectAttempts = 0
    ∧ ∀ r : String, r ≠ "io client disconnect" →
        (onDisconnect (onConnect s) r).2 =
          [WSAction.scheduleReconnect 1000] := by
  refine ⟨rfl, ?_⟩
  intro r hr
  simp [onConnect, onDisconnect, handleReconnect, hr,
    maxReconnectAttempts, reconnectDelay]

/-- Witness for C6 at an arbitrary concrete state with a pending
attempt count of 4 and the socket.io reason string `transport close`. -/
theorem connect_resets_reconnectAttempts_witness :
    (onConnect ⟨true, false, true, 4⟩).reconnectAttempts = 0
    ∧ (onDisconnect (onConnect ⟨true, false, true, 4⟩)
        "transport close").2 = [WSAction.scheduleReconnect 1000] :=
  ⟨(connect_resets_reconnectAttempts ⟨true, false, true, 4⟩).1,
   (connect_resets_reconnectAttempts ⟨true, false, true, 4⟩).2
     "transport close" (by decide)⟩

/-- Helper: a reconnect can only be scheduled by a socket `disconnect`
event whose reason differs from `io client disconnect`. -/
theorem wsStep_scheduleReconnect_cause (s : WSState) (e : WSEvent)
    (d : Nat) (h : WSAction.scheduleReconnect d ∈ (wsStep s e).2) :
    ∃ r, e = WSEvent.evDisconnect r ∧ r ≠ "io client disconnect" := by
  cases e with
  | evConnect => simp [wsStep] at h; split at h <;> simp_all
  | evDisconnect r =>
      refine ⟨r, rfl, ?_⟩
      intro hr
      subst hr
      simp [wsStep, onDisconnect, handleReconnect] at h
      split at h <;> simp_all
  | callConnect => simp [wsStep, connectCall] at h
  | callDisconnect =>
      simp [wsStep, disconnectCall, onDisconnect] at h
      split at h <;> simp_all
  | callSubscribeAlerts =>
      simp [wsStep, subscribeToAlerts] at h
      split at h <;> simp_all
  | callSubscribeLiveData i =>
      simp [wsStep, subscribeToLiveData] at h
      split at h <;> simp_all
  | callSubscribePredictions i =>
      simp [wsStep, subscribeToPredictions] at h
      split at h <;> simp_all

/-- C7: a reconnect attempt is scheduled only by an unexpected
disconnect (a socket `disconnect` event whose reason is not
`io client disconnect`); consequently a run containing no unexpected
disconnect — in particular one whose disconnects are all explicit
client-initiated calls — never schedules a reconnect. -/
theorem reconnect_only_on_unexpected_disconnect :
    (∀ (s : WSState) (e : WSEvent) (d : Nat),
        WSAction.scheduleReconnect d ∈ (wsStep s e).2 →
        ∃ r, e = WSEvent.evDisconnect r ∧ r ≠ "io client disconnect")
    ∧ (∀ (s : WSState) (evs : List WSEvent),
        (∀ e ∈ evs, isUnexpectedDisconnect e = false) →
        ∀ d : Nat, WSAction.scheduleReconnect d ∉ (wsRun s evs).2) := by
  refine ⟨wsStep_scheduleReconnect_cause, ?_⟩
  intro s evs
  induction evs generalizing s with
  | nil => intro _ d h; simp [wsRun] at h
  | cons e rest ih =>
      intro hall d h
      simp only [wsRun, List.mem_append] at h
      rcases h with h | h
      · obtain ⟨r, rfl, hr⟩ := wsStep_scheduleReconnect_cause s e d h
        have := hall (WSEvent.evDisconnect r) (by simp)
        simp [isUnexpectedDisconnect] at this
        exact hr this
      · exact ih (wsStep s e).1 (fun x hx => hall x (by simp [hx])) d h

/-- Witness for C7: in a concrete run that connects, subscribes, and
then disconnects explicitly, no reconnect is ever scheduled. -/
theorem reconnect_only_on_unexpected_disconnect_witness :
    WSAction.scheduleReconnect 1000 ∉
      (wsRun freshWS
        [WSEvent.evConnect, WSEvent.callSubscribeAlerts,
         WSEvent.callDisconnect]).2 :=
  reconnect_only_on_unexpected_disconnect.2 freshWS
    [WSEvent.evConnect, WSEvent.callSubscribeAlerts,
     WSEvent.callDisconnect] (by decide) 1000

/-- C10: each subscribe method called while the socket is missing or
not connected is a silent no-op — the state is returned unchanged (so
nothing is recorded for later replay) and no message is sent; moreover
neither the `connect()` call nor the socket `connect` event ever sends
a message, so the lost subscription is not replayed on (re)connect. -/
theorem subscribe_noop_when_disconnected (s : WSState) (i : Option Nat)
    (h : s.socketExists = false ∨ s.connected = false) :
    subscribeToAlerts s = (s, [])
    ∧ subscribeToLiveData s i = (s, [])
    ∧ subscribeToPredictions s i = (s, [])
    ∧ (∀ (s2 : WSState) (m : Msg),
        WSAction.sendMsg m ∉ (wsStep s2 WSEvent.callConnect).2
        ∧ WSAction.sendMsg m ∉ (wsStep s2 WSEvent.evConnect).2) := by
  have hg : (s.socketExists && s.connected) = false := by
    rcases h with h | h <;> simp [h]
  refine ⟨?_, ?_, ?_, ?_⟩
  · simp [subscribeToAlerts, hg]
  · simp [subscribeToLiveData, hg]
  · simp [subscribeToPredictions, hg]
  · intro s2 m
    constructor
    · simp [wsStep, connectCall]
    · simp [wsStep]
      split <;> simp

/-- Witness for C10 at a state whose socket exists but is not
connected. -/
theorem subscribe_noop_when_disconnected_witness :
    subscribeToAlerts freshWS = (freshWS, [])
    ∧ subscribeToLiveData freshWS (some 7) = (freshWS, [])
    ∧ subscribeToPredictions freshWS (some 7) = (freshWS, [])
    ∧ (∀ (s2 : WSState) (m : Msg),
        WSAction.sendMsg m ∉ (wsStep s2 WSEvent.callConnect).2
        ∧ WSAction.sendMsg m ∉ (wsStep s2 WSEvent.evConnect).2) :=
  subscribe_noop_when_disconnected freshWS (some 7) (Or.inr rfl)

/- ## Header alert buffer (src/frontend/src/components/Header.tsx) -/

/-- The `Alert` interface of Header.tsx (lines 34-42). -/
structure HeaderAlert where
  id : Nat
  severity : String
  title : String
  message : String
  timestamp : String
  is_active : Bool
  acknowledged_at : Option String
deriving DecidableEq

/-- Embedding of the alert-listener update of Header.tsx lines 63-65:
`setAlerts(prev => [alertData, ...prev.slice(0, 9)])` — the incoming
alert is prepended and only the first nine previous entries (the nine
newest, since newest is at the head) are kept. -/
def pushAlert (prev : List HeaderAlert) (a : HeaderAlert) :
    List HeaderAlert :=
  a :: prev.take 9

/-- A concrete alert event used in counterexamples and witnesses. -/
def headerAlertN (n : Nat) : HeaderAlert :=
  ⟨n, "high", "Rockfall risk", "threshold breached", "t", true, none⟩

/-- A full buffer of ten alert events, newest first (ids 0 to 9, so the
oldest entry is the one with id 9, at the tail). -/
def tenAlerts : List HeaderAlert := (List.range 10).map headerAlertN

/-- C4 counterexample: the bounded buffer of Header.tsx holds alert
events, and publishing an eleventh alert into the full buffer evicts
the oldest queued alert event — so alert events are not exempt from
eviction (and the buffer holds no live-data events at all). -/
theorem header_buffer_evicts_alert :
    headerAlertN 9 ∈ tenAlerts
    ∧ headerAlertN 9 ∉ pushAlert tenAlerts (headerAlertN 10)
    ∧ headerAlertN 10 ∈ pushAlert tenAlerts (headerAlertN 10)
    ∧ tenAlerts.length = 10 := by
  decide

/-- C4 amended: inserting into the bounded Header buffer is a pure,
non-blocking list update that keeps the new event at the head, caps the
buffer at ten entries, preserves the nine newest previous entries in
order, and drops every older entry — the evicted entries are the oldest
alert events, with no exemption for alerts and no separate live-data
class. -/
theorem pushAlert_bounded_drop_oldest (prev : List HeaderAlert)
    (a : HeaderAlert) :
    (pushAlert prev a).head? = some a
    ∧ (pushAlert prev a).length ≤ 10
    ∧ (∀ i : Nat, i < 9 → (pushAlert prev a).get? (i + 1) = prev.get? i)
    ∧ (∀ j : Nat, 9 ≤ j → (pushAlert prev a).get? (j + 1) = none) := by
  refine ⟨rfl, ?_, ?_, ?_⟩
  · have := List.length_take 9 prev
    simp only [pushAlert, List.length_cons, this]
    omega
  · intro i hi
    simp only [pushAlert, List.get?_cons_succ]
    exact List.get?_take hi
  · intro j hj
    simp only [pushAlert, List.get?_cons_succ]
    refine List.get?_eq_none.mpr ?_
    have := List.length_take 9 prev
    omega

/-- Witness for the amended C4 theorem on the concrete full buffer. -/
theorem pushAlert_bounded_drop_oldest_witness :
    (pushAlert tenAlerts (headerAlertN 10)).head? =
        some (headerAlertN 10)
    ∧ (pushAlert tenAlerts (headerAlertN 10)).get? 1 = tenAlerts.get? 0
    ∧ (pushAlert tenAlerts (headerAlertN 10)).get? 10 = none :=
  ⟨(pushAlert_bounded_drop_oldest tenAlerts (headerAlertN 10)).1,
   (pushAlert_bounded_drop_oldest tenAlerts (headerAlertN 10)).2.2.1 0
     (by decide),
   (pushAlert_bounded_drop_oldest tenAlerts (headerAlertN 10)).2.2.2 9
     (by decide)⟩

/- ## Alerts table (src/database/schema.sql, lines 114-128) -/

/-- The `alert_severity` enumerated type of the schema. -/
inductive SchemaSeverity where
  | low
  | medium
  | high
  | critical
deriving DecidableEq

/-- One row of the `alerts` table; UUID columns are abstracted to
natural numbers, timestamps to naturals. -/
structure AlertRow where
  id : Nat
  site_id : Nat
  severity : SchemaSeverity
  title : String
  message : String
  alert_type : Option String
  is_active : Bool
  acknowledged_by : Option Nat
  acknowledged_at : Option Nat
  resolved_at : Option Nat
deriving DecidableEq

/-- Insertion into the `alerts` table under the schema's constraints:
the only uniqueness constraint is the primary key on `id`, and
`site_id` must reference an existing geological site.  The schema has
no sensor column and no constraint on coexisting active alerts. -/
def insertAlert (sites : List Nat) (tbl : List AlertRow) (r : AlertRow) :
    Option (List AlertRow) :=
  if tbl.any (fun x => x.id == r.id) then none
  else if sites.contains r.site_id then some (tbl ++ [r])
  else none

/-- A first active critical alert for site 1. -/
def alertRow1 : AlertRow :=
  ⟨1, 1, SchemaSeverity.critical, "Alert A", "m1", none, true, none,
   none, none⟩

/-- A second active critical alert for the same site 1. -/
def alertRow2 : AlertRow :=
  ⟨2, 1, SchemaSeverity.critical, "Alert B", "m2", none, true, none,
   none, none⟩

/-- C3 counterexample: the schema accepts a second active alert with
the same site and the same severity as an existing active alert —
nothing rejects it, and the resulting table holds two coexisting
non-resolved alerts for the pair.  The table has no sensor column, so a
per-sensor uniqueness cannot even be expressed. -/
theorem alerts_schema_allows_duplicate_active :
    insertAlert [1] [alertRow1] alertRow2 = some [alertRow1, alertRow2]
    ∧ alertRow1.is_active = true
    ∧ alertRow2.is_active = true
    ∧ alertRow1.site_id = alertRow2.site_id
    ∧ alertRow1.severity = alertRow2.severity
    ∧ alertRow1.id ≠ alertRow2.id := by
  decide

/-- C3 amended: the schema enforces only primary-key uniqueness and the
site foreign key — an insert of a fresh-id active alert is accepted
regardless of an existing active alert with the same site and severity,
and both alerts coexist in the resulting table. -/
theorem insertAlert_accepts_second_active (sites : List Nat)
    (tbl : List AlertRow) (r x : AlertRow)
    (hx : x ∈ tbl) (hxa : x.is_active = true)
    (hsite : x.site_id = r.site_id) (hsev : x.severity = r.severity)
    (hra : r.is_active = true)
    (hid : ∀ y ∈ tbl, y.id ≠ r.id)
    (hfk : r.site_id ∈ sites) :
    insertAlert sites tbl r = some (tbl ++ [r])
    ∧ x ∈ tbl ++ [r] ∧ r ∈ tbl ++ [r] := by
  have h1 : tbl.any (fun y => y.id == r.id) = false := by
    rw [List.any_eq_false]
    intro y hy
    simpa using hid y hy
  refine ⟨?_, ?_, ?_⟩
  · simp [insertAlert, h1, hfk]
  · exact List.mem_append_left _ hx
  · exact List.mem_append_right _ (List.mem_singleton.mpr rfl)

/-- Witness for the amended C3 theorem on the concrete two-alert
scenario. -/
theorem insertAlert_accepts_second_active_witness :
    insertAlert [1] [alertRow1] alertRow2 =
        some ([alertRow1] ++ [alertRow2])
    ∧ alertRow1 ∈ [alertRow1] ++ [alertRow2]
    ∧ alertRow2 ∈ [alertRow1] ++ [alertRow2] :=
  insertAlert_accepts_second_active [1] [alertRow1] alertRow2 alertRow1
    (by decide) (by decide) (by decide) (by decide) (by decide)
    (by intro y hy; simp at hy; subst hy; decide) (by decide)

/- ## Broker session restore (spec 4.5; no server code under src) -/

/-- One broker-side client session: its stable id, its subscription
set, and a last-seen timestamp. -/
structure BrokerSession where
  sid : String
  subs : List String
  lastSeen : Nat
deriving DecidableEq

/-- The broker's session table and reconnect grace period. -/
structure Broker where
  sessions : List BrokerSession
  graceMs : Nat
deriving DecidableEq

/-- Modelled from the spec: the repository ships no broker / server
implementation (src/server holds only a database setup script), so the
session-identity behavior of spec section 4.5 is modelled here: if a
client reconnects with a previously issued session id within the grace
period, the broker restores its subscription set (replay-on-reconnect)
rather than forcing manual re-subscription; otherwise a fresh session
and id are issued. -/
def brokerHandleConnect (b : Broker) (now : Nat) (claimed : Option String)
    (freshId : String) : Broker × String :=
  match claimed with
  | some cid =>
    match b.sessions.find? (fun s => s.sid == cid) with
    | some sess =>
        if now - sess.lastSeen ≤ b.graceMs then
          ({ b with sessions :=
               ⟨cid, sess.subs, now⟩ ::
                 b.sessions.filter (fun s => !(s.sid == cid)) }, cid)
        else
          ({ b with sessions := b.sessions ++ [⟨freshId, [], now⟩] },
           freshId)
    | none =>
        ({ b with sessions := b.sessions ++ [⟨freshId, [], now⟩] },
         freshId)
  | none =>
      ({ b with sessions := b.sessions ++ [⟨freshId, [], now⟩] },
       freshId)

/-- Modelled from the spec: publishing on a topic delivers the event to
exactly the sessions whose subscription set holds the topic; this
returns the ids of those recipients. -/
def brokerRecipients (b : Broker) (topic : String) : List String :=
  (b.sessions.filter (fun s => s.subs.contains topic)).map
    (fun s => s.sid)

/-- C8: a client reconnecting with a previously issued session id
within the grace period keeps that id, its subscription set is restored
unchanged, and every topic of the old set delivers to the client again
without any new subscribe message. -/
theorem reconnect_within_grace_restores_subscriptions (b : Broker)
    (now : Nat) (cid freshId : String) (sess : BrokerSession)
    (hfind : b.sessions.find? (fun s => s.sid == cid) = some sess)
    (hgrace : now - sess.lastSeen ≤ b.graceMs) :
    (brokerHandleConnect b now (some cid) freshId).2 = cid
    ∧ (brokerHandleConnect b now (some cid) freshId).1.sessions.find?
        (fun s => s.sid == cid) =
          some ⟨cid, sess.subs, now⟩
    ∧ ∀ t, t ∈ sess.subs →
        cid ∈ brokerRecipients
          (brokerHandleConnect b now (some cid) freshId).1 t := by
  refine ⟨?_, ?_, ?_⟩
  · simp [brokerHandleConnect, hfind, hgrace]
  · simp [brokerHandleConnect, hfind, hgrace, List.find?]
  · intro t ht
    simp [brokerHandleConnect, hfind, hgrace, brokerRecipients]
    exact ⟨⟨cid, sess.subs, now⟩, ⟨Or.inl rfl, ht⟩, rfl⟩

/-- Witness for C8 on a concrete broker holding session `s1` with the
`alerts` subscription, reconnecting well inside the grace period. -/
theorem reconnect_within_grace_restores_subscriptions_witness :
    (brokerHandleConnect ⟨[⟨"s1", ["alerts"], 0⟩], 30000⟩ 1000
        (some "s1") "fresh").2 = "s1"
    ∧ (brokerHandleConnect ⟨[⟨"s1", ["alerts"], 0⟩], 30000⟩ 1000
        (some "s1") "fresh").1.sessions.find?
          (fun s => s.sid == "s1") = some ⟨"s1", ["alerts"], 1000⟩
    ∧ "s1" ∈ brokerRecipients
        (brokerHandleConnect ⟨[⟨"s1", ["alerts"], 0⟩], 30000⟩ 1000
          (some "s1") "fresh").1 "alerts" :=
  ⟨(reconnect_within_grace_restores_subscriptions
      ⟨[⟨"s1", ["alerts"], 0⟩], 30000⟩ 1000 "s1" "fresh"
      ⟨"s1", ["alerts"], 0⟩ (by decide) (by decide)).1,
   (reconnect_within_grace_restores_subscriptions
      ⟨[⟨"s1", ["alerts"], 0⟩], 30000⟩ 1000 "s1" "fresh"
      ⟨"s1", ["alerts"], 0⟩ (by decide) (by decide)).2.1,
   (reconnect_within_grace_restores_subscriptions
      ⟨[⟨"s1", ["alerts"], 0⟩], 30000⟩ 1000 "s1" "fresh"
      ⟨"s1", ["alerts"], 0⟩ (by decide) (by decide)).2.2 "alerts"
     (by decide)⟩

/- ## Alert acknowledge / resolve backend (spec 4.3 and 6; the REST
client is src/src/services/api.ts, the backend is not in the repo) -/

/-- The alert lifecycle states of the spec. -/
inductive AlertLifecycle where
  | active
  | acknowledged
  | resolved
deriving DecidableEq

/-- One stored alert with its lifecycle fields. -/
structure AlertRec where
  id : Nat
  lifecycle : AlertLifecycle
  acknowledgedBy : Option Nat
  acknowledgedAt : Option Nat
  resolvedAt : Option Nat
deriving DecidableEq

/-- The operator-action error of the spec's taxonomy. -/
inductive TransitionError where
  | invalidTransition
deriving DecidableEq

/-- Modelled from the spec: the backend behind
`ApiService.acknowledgeAlert` (src/src/services/api.ts lines 178-181)
is not in the repository; spec sections 4.3 and 6: acknowledge moves an
Active alert to Acknowledged recording acknowledger and timestamp, and
a call against a non-existent or already-Resolved alert fails with
`InvalidTransitionError`, returned synchronously to the caller. -/
def acknowledgeAlert (store : List AlertRec) (alertId userId now : Nat) :
    Except TransitionError (List AlertRec) :=
  match store.find? (fun a => a.id == alertId) with
  | none => Except.error TransitionError.invalidTransition
  | some a =>
    match a.lifecycle with
    | AlertLifecycle.active =>
        Except.ok (store.map (fun x =>
          if x.id == alertId then
            { x with lifecycle := AlertLifecycle.acknowledged,
                     acknowledgedBy := some userId,
                     acknowledgedAt := some now }
          else x))
    | _ => Except.error TransitionError.invalidTransition

/-- Modelled from the spec: the backend behind
`ApiService.resolveAlert` (src/src/services/api.ts lines 183-186) is
not in the repository; spec section 4.3: resolve is allowed from Active
or Acknowledged and transitions directly to Resolved, while a call
against a non-existent or already-Resolved alert fails with
`InvalidTransitionError`. -/
def resolveAlert (store : List AlertRec) (alertId now : Nat) :
    Except TransitionError (List AlertRec) :=
  match store.find? (fun a => a.id == alertId) with
  | none => Except.error TransitionError.invalidTransition
  | some a =>
    match a.lifecycle with
    | AlertLifecycle.resolved =>
        Except.error TransitionError.invalidTransition
    | _ =>
        Except.ok (store.map (fun x =>
          if x.id == alertId then
            { x with lifecycle := AlertLifecycle.resolved,
                     resolvedAt := some now }
          else x))

/-- C9: an acknowledge or resolve call against a non-existent alert or
an already-Resolved alert fails with `InvalidTransitionError`, returned
synchronously as the call's result — in particular acknowledging a
Resolved alert always fails. -/
theorem ack_resolve_invalid_transition (store : List AlertRec)
    (alertId userId now : Nat)
    (h : store.find? (fun a => a.id == alertId) = none
       ∨ ∃ a, store.find? (fun a => a.id == alertId) = some a
            ∧ a.lifecycle = AlertLifecycle.resolved) :
    acknowledgeAlert store alertId userId now =
        Except.error TransitionError.invalidTransition
    ∧ resolveAlert store alertId now =
        Except.error TransitionError.invalidTransition := by
  rcases h with h | ⟨a, ha, hres⟩
  · constructor <;> simp [acknowledgeAlert, resolveAlert, h]
  · constructor <;> simp [acknowledgeAlert, resolveAlert, ha, hres]

/-- Witness for C9: acknowledging and resolving the already-resolved
alert 1 both fail with `InvalidTransitionError`. -/
theorem ack_resolve_invalid_transition_witness :
    acknowledgeAlert [⟨1, AlertLifecycle.resolved, none, none, some 5⟩]
        1 2 10 = Except.error TransitionError.invalidTransition
    ∧ resolveAlert [⟨1, AlertLifecycle.resolved, none, none, some 5⟩]
        1 10 = Except.error TransitionError.invalidTransition :=
  ack_resolve_invalid_transition
    [⟨1, AlertLifecycle.resolved, none, none, some 5⟩] 1 2 10
    (Or.inr ⟨⟨1, AlertLifecycle.resolved, none, none, some 5⟩,
      by decide, rfl⟩)
